import Mathlib

/-!
Verification development for the event-emitter repository
(src/event_emitter/event_emitter.py).

The embedding is shallow: the Python class EventEmitter becomes a Lean
structure, the Python dict becomes an insertion-ordered association list,
and each method becomes a pure function that returns the emission outcome
(the ordered trace of observable steps plus an optional propagated error).

Listener handles are modelled as values carrying an identity, the
capability tag that asyncio.iscoroutinefunction inspects, and the
behaviour of the listener body when it is called (return normally or
raise an error).
-/

/-- Errors that can propagate out of an emitter operation.  attributeError
models the Python AttributeError raised when an object attribute that was
never assigned is read.  strictModeViolation models the error that
emit_sync raises in strict mode, identifying the event name and the
offending listener (the source docstring at lines 80-84 calls it
RuntimeError).  listenerExc n models an arbitrary error raised by a
listener body, tagged with an opaque code n. -/
inductive PyError where
  | attributeError (attrName : String)
  | strictModeViolation (event : String) (listenerId : Nat)
  | listenerExc (code : Nat)
deriving Repr, DecidableEq

/-- A listener handle: an opaque callable.  id is the identity of the
callable, isAsync is the capability tag returned by
asyncio.iscoroutinefunction, and raises is the behaviour of the body when
invoked: none means it returns normally (its return value is discarded by
the emitter), some e means the body raises e. -/
structure Listener where
  id : Nat
  isAsync : Bool
  raises : Option PyError
deriving Repr, DecidableEq

/-- The registry type of the emitter: the Python dict
Dict[str, List] of line 26, modelled as an insertion-ordered association
list from event names to listener lists. -/
abbrev Registry := List (String × List Listener)

/-- Python d.get(k): some v when the key is present, none otherwise. -/
def pyDictGet : Registry → String → Option (List Listener)
  | [], _ => none
  | (k', v) :: rest, k => if k' = k then some v else pyDictGet rest k

/-- Python d.get(k, dflt): the stored list when the key is present, the
default otherwise.  Line 61 uses this with default []. -/
def pyGetD (d : Registry) (k : String) (dflt : List Listener) : List Listener :=
  match pyDictGet d k with
  | some v => v
  | none => dflt

/-- Python d[k] = v: overwrite the value of an existing key in place, or
append a new key-value pair at the end (dict insertion order). -/
def pyDictSet : Registry → String → List Listener → Registry
  | [], k, v => [(k, v)]
  | (k', v') :: rest, k, v =>
      if k' = k then (k, v) :: rest else (k', v') :: pyDictSet rest k v

/-- The EventEmitter object.  Its constructor (lines 24-26) assigns
exactly two attributes, strict and listeners; no other attribute is ever
assigned on the object. -/
structure EventEmitter where
  strict : Bool
  listeners : Registry
deriving Repr, DecidableEq

/-- EventEmitter.__init__ (lines 24-26).  The source reads
self.strict: bool = True, assigning the literal True and ignoring the
strict parameter entirely; the listeners dict starts empty. -/
def EventEmitter.init (strict : Bool) : EventEmitter :=
  { strict := true, listeners := [] }

/-- EventEmitter.listen (lines 28-45): the returned decorator applied to a
listener func.  Line 38 tests the walrus binding
lsrns := self.listeners.get(event) for Python truthiness, so a present
non-empty list is appended to in place (line 39) while an absent key or a
present empty list gets the fresh one-element list [func] (line 41).  The
decorator returns func itself (line 43).  No branch can raise, so the
result type is a plain pair of the updated emitter and the returned
listener. -/
def EventEmitter.listen (self : EventEmitter) (event : String) (func : Listener) :
    EventEmitter × Listener :=
  match pyDictGet self.listeners event with
  | some lsrns =>
      if lsrns.isEmpty then
        ({ self with listeners := pyDictSet self.listeners event [func] }, func)
      else
        ({ self with listeners := pyDictSet self.listeners event (lsrns ++ [func]) }, func)
  | none => ({ self with listeners := pyDictSet self.listeners event [func] }, func)

/-- One observable step of an emission.  invoke i args: the listener with
identity i is called with the argument bundle args (its return value is
discarded).  suspend i: the calling context suspends, awaiting the
asynchronous listener i.  warn i: a RuntimeWarning is emitted reporting
that the asynchronous listener i was skipped. -/
inductive Step where
  | invoke (id : Nat) (args : List Nat)
  | suspend (id : Nat)
  | warn (id : Nat)
deriving Repr, DecidableEq

/-- The outcome of one emission: the ordered trace of observable steps
that happened before the operation finished, and the error that
propagated to the caller (none when the operation returned normally). -/
structure EmitOutcome where
  trace : List Step
  error : Option PyError
deriving Repr, DecidableEq

/-- The for loop of EventEmitter.emit_async (lines 61-65) applied to a
listener list: each listener is called in order with the argument bundle;
a listener whose capability is asynchronous is awaited (the caller
suspends) before the next one is called; a raised error ends the loop and
propagates. -/
def emitAsyncLoop (ls : List Listener) (args : List Nat) : EmitOutcome :=
  match ls with
  | [] => { trace := [], error := none }
  | l :: rest =>
      if l.isAsync then
        match l.raises with
        | some e => { trace := [Step.invoke l.id args, Step.suspend l.id], error := some e }
        | none =>
            let r := emitAsyncLoop rest args
            { trace := Step.invoke l.id args :: Step.suspend l.id :: r.trace, error := r.error }
      else
        match l.raises with
        | some e => { trace := [Step.invoke l.id args], error := some e }
        | none =>
            let r := emitAsyncLoop rest args
            { trace := Step.invoke l.id args :: r.trace, error := r.error }

/-- The attribute read self._listeners on line 61.  The constructor
(lines 24-26) assigns only the attributes strict and listeners, and no
method ever assigns _listeners, so this read raises
AttributeError for the name _listeners on every EventEmitter object. -/
def EventEmitter.underscoreListeners (self : EventEmitter) : Except PyError Registry :=
  Except.error (PyError.attributeError "_listeners")

/-- EventEmitter.emit_async (lines 47-65): iterates over
self._listeners.get(event, []) calling each listener, awaiting the
asynchronous ones.  Because the attribute _listeners does not exist (see
EventEmitter.underscoreListeners), the loop is never reached and the call
always fails with AttributeError before invoking any listener. -/
def EventEmitter.emit_async (self : EventEmitter) (event : String) (args : List Nat) :
    EmitOutcome :=
  match self.underscoreListeners with
  | Except.error e => { trace := [], error := some e }
  | Except.ok d => emitAsyncLoop (pyGetD d event []) args

/-- emit_async as its own docstring (lines 48-50) describes it: iterate
over the listeners registry of the emitter.  This is the intended
behaviour obtained by reading self.listeners instead of the nonexistent
self._listeners; it is kept to exhibit the divergence between the code as
written and the documented behaviour. -/
def EventEmitter.emit_async_intended (self : EventEmitter) (event : String) (args : List Nat) :
    EmitOutcome :=
  emitAsyncLoop (pyGetD self.listeners event []) args

/-- Modelled from the spec: the body of EventEmitter.emit_sync is missing
from src/event_emitter/event_emitter.py (the file is truncated inside the
emit_sync docstring at line 85; only the signature and docstring are
present).  Following spec section 4.3, the loop walks the listener list in
registration order: a synchronous listener is invoked directly and its
result discarded; an asynchronous listener under strict mode aborts the
emission immediately with a StrictModeViolation identifying the event and
that listener, without invoking it (the source docstring names the raised
class RuntimeError); an asynchronous listener under non-strict mode is
skipped, one warning is emitted for it, and the loop continues.  An error
raised by an invoked listener body ends the loop and propagates. -/
def emitSyncLoop (strict : Bool) (event : String) (ls : List Listener) (args : List Nat) :
    EmitOutcome :=
  match ls with
  | [] => { trace := [], error := none }
  | l :: rest =>
      if l.isAsync then
        if strict then
          { trace := [], error := some (PyError.strictModeViolation event l.id) }
        else
          let r := emitSyncLoop strict event rest args
          { trace := Step.warn l.id :: r.trace, error := r.error }
      else
        match l.raises with
        | some e => { trace := [Step.invoke l.id args], error := some e }
        | none =>
            let r := emitSyncLoop strict event rest args
            { trace := Step.invoke l.id args :: r.trace, error := r.error }

/-- Modelled from the spec: EventEmitter.emit_sync, whose body is missing
from the truncated source file.  Per spec sections 4.3 and the emit_sync
docstring, it reads the listener list registered under the event (an
unknown event name is a no-op) and runs the synchronous emission loop
under the strictness policy of the emitter. -/
def EventEmitter.emit_sync (self : EventEmitter) (event : String) (args : List Nat) :
    EmitOutcome :=
  emitSyncLoop self.strict event (pyGetD self.listeners event []) args

/-! Registry lemmas shared by the claims about registration. -/

theorem pyDictGet_set_self (d : Registry) (k : String) (v : List Listener) :
    pyDictGet (pyDictSet d k v) k = some v := by
  induction d with
  | nil => simp [pyDictSet, pyDictGet]
  | cons p rest ih =>
      by_cases h : p.1 = k
      · simp [pyDictSet, pyDictGet, h]
      · simp [pyDictSet, pyDictGet, h, ih]

theorem pyDictGet_set_other (d : Registry) (k other : String) (v : List Listener)
    (hne : other ≠ k) : pyDictGet (pyDictSet d k v) other = pyDictGet d other := by
  induction d with
  | nil => simp [pyDictSet, pyDictGet, Ne.symm hne]
  | cons p rest ih =>
      by_cases h : p.1 = k
      · simp [pyDictSet, pyDictGet, h, Ne.symm hne]
      · simp [pyDictSet, pyDictGet, h, ih]

theorem listen_listeners_eq (self : EventEmitter) (event : String) (f : Listener) :
    (self.listen event f).1.listeners =
      pyDictSet self.listeners event ((pyGetD self.listeners event []) ++ [f]) := by
  unfold EventEmitter.listen
  cases h : pyDictGet self.listeners event with
  | none => simp [pyGetD, h]
  | some lsrns =>
      cases he : lsrns.isEmpty with
      | true => simp [pyGetD, h, List.isEmpty_iff.mp he]
      | false => simp [pyGetD, h, he]

/-! Emission-loop lemmas shared by the claims about the two emission
modes. -/

theorem emitSyncLoop_strict_first_async (event : String) (args : List Nat)
    (pre : List Listener) (l : Listener) (post : List Listener)
    (hasync : l.isAsync = true)
    (hpre_sync : ∀ p ∈ pre, p.isAsync = false)
    (hpre_ok : ∀ p ∈ pre, p.raises = none) :
    emitSyncLoop true event (pre ++ l :: post) args =
      { trace := pre.map (fun p => Step.invoke p.id args),
        error := some (PyError.strictModeViolation event l.id) } := by
  induction pre with
  | nil => simp [emitSyncLoop, hasync]
  | cons p rest ih =>
      have hp : p.isAsync = false := hpre_sync p (List.mem_cons_self p rest)
      have hr : p.raises = none := hpre_ok p (List.mem_cons_self p rest)
      have ih' := ih (fun q hq => hpre_sync q (List.mem_cons_of_mem p hq))
        (fun q hq => hpre_ok q (List.mem_cons_of_mem p hq))
      simp [emitSyncLoop, hp, hr, ih']

theorem emitSyncLoop_nonstrict (event : String) (args : List Nat) (ls : List Listener)
    (hok : ∀ l ∈ ls, l.isAsync = false → l.raises = none) :
    emitSyncLoop false event ls args =
      { trace := ls.map (fun l => if l.isAsync then Step.warn l.id else Step.invoke l.id args),
        error := none } := by
  induction ls with
  | nil => simp [emitSyncLoop]
  | cons l rest ih =>
      have ih' := ih (fun q hq hs => hok q (List.mem_cons_of_mem l hq) hs)
      cases ha : l.isAsync with
      | true => simp [emitSyncLoop, ha, ih']
      | false =>
          have hr : l.raises = none := hok l (List.mem_cons_self l rest) ha
          simp [emitSyncLoop, ha, hr, ih']

theorem emitSyncLoop_no_suspend (strict : Bool) (event : String) (ls : List Listener)
    (args : List Nat) (i : Nat) :
    Step.suspend i ∉ (emitSyncLoop strict event ls args).trace := by
  induction ls with
  | nil => simp [emitSyncLoop]
  | cons l rest ih =>
      cases ha : l.isAsync with
      | true => cases strict <;> simp [emitSyncLoop, ha, ih]
      | false =>
          cases hr : l.raises with
          | none => simp [emitSyncLoop, ha, hr, ih]
          | some e => simp [emitSyncLoop, ha, hr]

theorem emitAsyncLoop_suspend_only_async (ls : List Listener) (args : List Nat) (i : Nat)
    (h : Step.suspend i ∈ (emitAsyncLoop ls args).trace) :
    ∃ l ∈ ls, l.id = i ∧ l.isAsync = true := by
  induction ls with
  | nil => simp [emitAsyncLoop] at h
  | cons l rest ih =>
      cases ha : l.isAsync with
      | true =>
          cases hr : l.raises with
          | some e =>
              simp [emitAsyncLoop, ha, hr] at h
              exact ⟨l, List.mem_cons_self l rest, h.symm, ha⟩
          | none =>
              simp [emitAsyncLoop, ha, hr] at h
              rcases h with h | h
              · exact ⟨l, List.mem_cons_self l rest, h.symm, ha⟩
              · rcases ih h with ⟨q, hq, hid, hqa⟩
                exact ⟨q, List.mem_cons_of_mem l hq, hid, hqa⟩
      | false =>
          cases hr : l.raises with
          | some e => simp [emitAsyncLoop, ha, hr] at h
          | none =>
              simp [emitAsyncLoop, ha, hr] at h
              rcases ih h with ⟨q, hq, hid, hqa⟩
              exact ⟨q, List.mem_cons_of_mem l hq, hid, hqa⟩

/-! Claim theorems. -/

/-- C1: evaluation of the constructor at the failing input.  Constructing
an emitter with the argument strict = false still yields an emitter whose
strict field is true, because line 25 assigns the literal True instead of
the parameter; this contradicts the claim that the strict field equals
the constructor argument. -/
theorem c1_constructor_ignores_strict_argument :
    (EventEmitter.init false).strict = true := rfl

/-- C10: for every boolean argument b, the emitter constructed by the
initializer has strict equal to true, since line 25 assigns the literal
True regardless of the constructor argument (and the default argument is
True as well). -/
theorem c10_strict_always_true (b : Bool) : (EventEmitter.init b).strict = true := rfl

/-- C2: evaluation of emit_async at the failing input.  On an emitter
holding the synchronous listener 1 and the asynchronous listener 2
registered in that order under event x, emit_async invokes no listener at
all and fails with AttributeError for the name _listeners, instead of
invoking listeners 1 and 2 in registration order as the claim states. -/
theorem c2_emit_async_raises_attribute_error :
    (((EventEmitter.init true).listen "x"
          { id := 1, isAsync := false, raises := none }).1.listen "x"
          { id := 2, isAsync := true, raises := none }).1.emit_async "x" [5] =
      { trace := [], error := some (PyError.attributeError "_listeners") } := rfl

/-- C5: evaluation at the failing input.  On a freshly constructed
emitter, emitting the unregistered event name nope is a no-op under
emit_sync (no step, no error), but the same emission under emit_async
fails with AttributeError instead of completing as a no-op, refuting the
claim for the asynchronous mode. -/
theorem c5_empty_event_emit_async_not_noop :
    (EventEmitter.init true).emit_sync "nope" [] = { trace := [], error := none } ∧
    (EventEmitter.init true).emit_async "nope" [] =
      { trace := [], error := some (PyError.attributeError "_listeners") } :=
  ⟨rfl, rfl⟩

/-- C6: evaluation at the failing input.  On an emitter whose only
listener under event x raises listenerExc 7 when invoked, emit_async
never invokes that listener and its caller receives AttributeError for
the name _listeners rather than the propagated listener error; the same
loop run over the registry attribute that the docstring intends invokes
the listener and propagates listenerExc 7 unchanged. -/
theorem c6_listener_error_not_propagated_by_emit_async :
    ((((EventEmitter.init true).listen "x"
          { id := 1, isAsync := false, raises := some (PyError.listenerExc 7) }).1.emit_async
          "x" []) =
        { trace := [], error := some (PyError.attributeError "_listeners") }) ∧
    ((((EventEmitter.init true).listen "x"
          { id := 1, isAsync := false, raises := some (PyError.listenerExc 7) }).1.emit_async_intended
          "x" []) =
        { trace := [Step.invoke 1 []], error := some (PyError.listenerExc 7) }) :=
  ⟨rfl, rfl⟩

/-- C3: with strict mode on, synchronous emission of an event whose
registered listener list decomposes as pre ++ l :: post with l its first
asynchronous listener (every earlier listener synchronous) and every
earlier listener completing normally, invokes exactly the earlier
listeners in registration order, does not invoke l, and fails with a
StrictModeViolation identifying the event name and l. -/
theorem c3_emit_sync_strict_stops_at_first_async (self : EventEmitter) (event : String)
    (args : List Nat) (pre : List Listener) (l : Listener) (post : List Listener)
    (hstrict : self.strict = true)
    (hls : pyGetD self.listeners event [] = pre ++ l :: post)
    (hasync : l.isAsync = true)
    (hpre_sync : ∀ p ∈ pre, p.isAsync = false)
    (hpre_ok : ∀ p ∈ pre, p.raises = none) :
    self.emit_sync event args =
      { trace := pre.map (fun p => Step.invoke p.id args),
        error := some (PyError.strictModeViolation event l.id) } := by
  unfold EventEmitter.emit_sync
  rw [hstrict, hls]
  exact emitSyncLoop_strict_first_async event args pre l post hasync hpre_sync hpre_ok

/-- C3 witness: on an emitter built by registering the synchronous
listener 1 and then the asynchronous listener 2 under event x, strict
synchronous emission invokes listener 1 and fails with a
StrictModeViolation naming x and listener 2. -/
theorem c3_emit_sync_strict_stops_at_first_async_witness :
    (((EventEmitter.init true).listen "x"
          { id := 1, isAsync := false, raises := none }).1.listen "x"
          { id := 2, isAsync := true, raises := none }).1.emit_sync "x" [3] =
      { trace := [Step.invoke 1 [3]],
        error := some (PyError.strictModeViolation "x" 2) } :=
  c3_emit_sync_strict_stops_at_first_async _ "x" [3]
    [{ id := 1, isAsync := false, raises := none }]
    { id := 2, isAsync := true, raises := none } []
    rfl rfl rfl (by decide) (by decide)

/-- C4: with strict mode off, synchronous emission of an event whose
registered listener list is ls, in which no synchronous listener raises,
produces in registration order one invocation step per synchronous
listener and exactly one warning step per asynchronous listener (which is
never invoked), and returns normally with no error. -/
theorem c4_emit_sync_nonstrict_skips_async_with_warning (self : EventEmitter) (event : String)
    (args : List Nat) (ls : List Listener)
    (hstrict : self.strict = false)
    (hls : pyGetD self.listeners event [] = ls)
    (hok : ∀ l ∈ ls, l.isAsync = false → l.raises = none) :
    self.emit_sync event args =
      { trace := ls.map (fun l => if l.isAsync then Step.warn l.id else Step.invoke l.id args),
        error := none } := by
  unfold EventEmitter.emit_sync
  rw [hstrict, hls]
  exact emitSyncLoop_nonstrict event args ls hok

/-- C4 witness: on a non-strict emitter whose event x holds the
synchronous listener 1, the asynchronous listener 2 and the synchronous
listener 3 in that order, synchronous emission invokes 1, warns once for
the skipped 2, invokes 3, and returns with no error. -/
theorem c4_emit_sync_nonstrict_skips_async_with_warning_witness :
    EventEmitter.emit_sync
        { strict := false,
          listeners := [("x", [{ id := 1, isAsync := false, raises := none },
                               { id := 2, isAsync := true, raises := none },
                               { id := 3, isAsync := false, raises := none }])] }
        "x" [4] =
      { trace := [Step.invoke 1 [4], Step.warn 2, Step.invoke 3 [4]], error := none } :=
  c4_emit_sync_nonstrict_skips_async_with_warning
    { strict := false,
      listeners := [("x", [{ id := 1, isAsync := false, raises := none },
                           { id := 2, isAsync := true, raises := none },
                           { id := 3, isAsync := false, raises := none }])] }
    "x" [4]
    [{ id := 1, isAsync := false, raises := none },
     { id := 2, isAsync := true, raises := none },
     { id := 3, isAsync := false, raises := none }]
    rfl rfl (by decide)

/-- C7: registering a listener f under an event appends it at the end of
the existing sequence of that event (creating a one-element sequence when
there was none, including when a stored list is empty, since appending to
the empty sequence coincides with creating the fresh one-element list):
no previously registered listener is dropped or reordered, and the
listener list of every other event name is left untouched.  The model of
listen is a total function, so registration under a fresh event name
cannot raise. -/
theorem c7_listen_appends_and_preserves_other_events (self : EventEmitter)
    (event other : String) (f : Listener) (hne : other ≠ event) :
    pyDictGet (self.listen event f).1.listeners event =
        some ((pyGetD self.listeners event []) ++ [f]) ∧
    pyDictGet (self.listen event f).1.listeners other =
        pyDictGet self.listeners other := by
  rw [listen_listeners_eq]
  exact ⟨pyDictGet_set_self _ _ _, pyDictGet_set_other _ _ _ _ hne⟩

/-- C7 witness: on an emitter already holding listener 1 under x and
listener 9 under y, registering listener 2 under x yields the sequence of
listener 1 followed by listener 2 under x, while the sequence under y is
unchanged. -/
theorem c7_listen_appends_and_preserves_other_events_witness :
    pyDictGet (EventEmitter.listen
        { strict := true,
          listeners := [("x", [{ id := 1, isAsync := false, raises := none }]),
                        ("y", [{ id := 9, isAsync := false, raises := none }])] }
        "x" { id := 2, isAsync := true, raises := none }).1.listeners "x" =
      some [{ id := 1, isAsync := false, raises := none },
            { id := 2, isAsync := true, raises := none }] ∧
    pyDictGet (EventEmitter.listen
        { strict := true,
          listeners := [("x", [{ id := 1, isAsync := false, raises := none }]),
                        ("y", [{ id := 9, isAsync := false, raises := none }])] }
        "x" { id := 2, isAsync := true, raises := none }).1.listeners "y" =
      some [{ id := 9, isAsync := false, raises := none }] :=
  c7_listen_appends_and_preserves_other_events
    { strict := true,
      listeners := [("x", [{ id := 1, isAsync := false, raises := none }]),
                    ("y", [{ id := 9, isAsync := false, raises := none }])] }
    "x" "y" { id := 2, isAsync := true, raises := none } (by decide)

/-- C8: the registrar returned by listen gives back the registered
listener value itself, unchanged, whatever the prior registry state. -/
theorem c8_listen_returns_listener_unchanged (self : EventEmitter) (event : String)
    (f : Listener) : (self.listen event f).2 = f := by
  unfold EventEmitter.listen
  split
  · split <;> rfl
  · rfl

/-- C9: synchronous emission never suspends the calling context (no step
of any emit_sync trace is a suspension, for every emitter, event and
argument bundle), while in the emission loop of emit_async a suspension
step can occur only for a listener of that emission whose capability is
asynchronous, at the point of invoking it. -/
theorem c9_suspension_only_in_emit_async (self : EventEmitter) (event : String)
    (args : List Nat) (ls : List Listener) (i : Nat) :
    Step.suspend i ∉ (self.emit_sync event args).trace ∧
    (Step.suspend i ∈ (emitAsyncLoop ls args).trace →
      ∃ l ∈ ls, l.id = i ∧ l.isAsync = true) :=
  ⟨emitSyncLoop_no_suspend self.strict event (pyGetD self.listeners event []) args i,
   emitAsyncLoop_suspend_only_async ls args i⟩

/-- C9 witness: a non-strict emitter with the asynchronous listener 2
under x produces no suspension step in emit_sync, and feeding the
asynchronous emission loop a list where suspension does occur locates an
asynchronous listener with the suspended identity. -/
theorem c9_suspension_only_in_emit_async_witness :
    Step.suspend 2 ∉ (EventEmitter.emit_sync
        { strict := false,
          listeners := [("x", [{ id := 2, isAsync := true, raises := none }])] }
        "x" []).trace ∧
    (∃ l ∈ [({ id := 2, isAsync := true, raises := none } : Listener)],
        l.id = 2 ∧ l.isAsync = true) :=
  ⟨(c9_suspension_only_in_emit_async
      { strict := false,
        listeners := [("x", [{ id := 2, isAsync := true, raises := none }])] }
      "x" [] [{ id := 2, isAsync := true, raises := none }] 2).1,
   (c9_suspension_only_in_emit_async
      { strict := false,
        listeners := [("x", [{ id := 2, isAsync := true, raises := none }])] }
      "x" [] [{ id := 2, isAsync := true, raises := none }] 2).2 (by decide)⟩
